import Mathlib

/-!
Formal model of the eGenix PyRun bootloader template
(`Runtime/pyrun_template.py`).

Python (2.x) strings are modelled as lists of characters (`PyStr`).
The helpers below translate, one to one, the string and `posixpath`
operations the bootloader calls (`str.strip`, `str.split`,
`os.path.abspath`, `os.path.split`, `os.path.join`, ...), followed by
the bootloader's own functions: `pyrun_normpath`, `getopt`-based
command-line parsing (`pyrun_parse_cmdline`), `sys.path` assembly
(`pyrun_setup_sys_path`), the bytecode branch of
`pyrun_execute_script`, and the `__main__` driver's failure handling.
-/

/-- Python 2 `str` values, modelled as lists of characters. -/
abbrev PyStr := List Char

/-- Characters removed by Python's `str.strip()` (whitespace). -/
def pyIsSpace (c : Char) : Bool :=
  c = ' ' || c = '\t' || c = '\n' || c = '\r' || c.toNat = 11 || c.toNat = 12

/-- Python `str.strip()`: drop leading and trailing whitespace. -/
def pyStrip (s : PyStr) : PyStr :=
  ((s.dropWhile pyIsSpace).reverse.dropWhile pyIsSpace).reverse

/-- Python `s.startswith(pat)`. -/
def pyStartsWith (s pat : PyStr) : Bool :=
  pat.isPrefixOf s

/-- Python `s.endswith(pat)`. -/
def pyEndsWith (s pat : PyStr) : Bool :=
  pat.isSuffixOf s

/-- Python `s.split(sep)` for a one-character separator `sep`
(`"".split(sep) = [""]`, separators produce empty fields). -/
def pySplitChar (sep : Char) : PyStr → List PyStr
  | [] => [[]]
  | c :: rest =>
    let r := pySplitChar sep rest
    if c = sep then [] :: r
    else
      match r with
      | [] => [[c]]
      | h :: t => (c :: h) :: t

/-- Python `repr` (`%r`) of a plain string without quotes or escapes:
surround it with single quotes. -/
def pyRepr (s : PyStr) : PyStr :=
  '\'' :: (s ++ ['\''])

/-- `posixpath.isabs`: a path is absolute iff it starts with a slash. -/
def posix_isabs (s : PyStr) : Bool :=
  pyStartsWith s ['/']

/-- `posixpath.join` for two components (the bootloader only joins
pairwise). -/
def posix_join (a b : PyStr) : PyStr :=
  if posix_isabs b then b
  else if a = [] ∨ pyEndsWith a ['/'] then a ++ b
  else a ++ '/' :: b

/-- One step of `posixpath.normpath`'s component loop: skip empty and
`.` components, append ordinary components, and let `..` pop the last
component unless the path is relative and empty so far or already ends
in `..`. -/
def normpathStep (initialSlashes : Bool) (acc : List PyStr) (comp : PyStr) : List PyStr :=
  if comp = [] ∨ comp = ['.'] then acc
  else if comp ≠ ['.', '.'] ∨ (¬ initialSlashes ∧ acc = []) ∨ (acc ≠ [] ∧ acc.getLast? = some ['.', '.'])
  then acc ++ [comp]
  else acc.dropLast

/-- `posixpath.normpath`: collapse `//`, `.` and `..` (keeping a
leading double slash, as POSIX requires). -/
def posix_normpath (path : PyStr) : PyStr :=
  if path = [] then ['.']
  else
    let initialSlashes : Nat :=
      if pyStartsWith path ['/'] then
        if pyStartsWith path ['/', '/'] ∧ ¬ pyStartsWith path ['/', '/', '/'] then 2 else 1
      else 0
    let comps := pySplitChar '/' path
    let newComps := comps.foldl (normpathStep (initialSlashes ≠ 0)) []
    let joined := List.replicate initialSlashes '/' ++ List.intercalate ['/'] newComps
    if joined = [] then ['.'] else joined

/-- `posixpath.abspath`: resolve against the working directory `cwd`
when relative, then normalize. The path need not exist. -/
def posix_abspath (cwd path : PyStr) : PyStr :=
  if ¬ posix_isabs path then posix_normpath (posix_join cwd path)
  else posix_normpath path

/-- `posixpath.split`: split off the component after the last slash;
the head keeps no trailing slashes unless it is all slashes. -/
def posix_split (p : PyStr) : PyStr × PyStr :=
  let tl := (p.reverse.takeWhile (fun c => ¬ c = '/')).reverse
  let hd := p.take (p.length - tl.length)
  let hd :=
    if hd ≠ [] ∧ hd.any (fun c => ¬ c = '/')
    then (hd.reverse.dropWhile (fun c => c = '/')).reverse
    else hd
  (hd, tl)

/-- `pyrun_normpath`: strip surrounding whitespace, perform limited
tilde expansion against the `HOME` environment variable (`home`;
`none` models an unset variable), then make the path absolute against
`cwd`. Translated from `pyrun_template.py` lines 288-312. -/
def pyrun_normpath (home : Option PyStr) (cwd : PyStr) (path : PyStr) : PyStr :=
  let path := pyStrip path
  let path :=
    if path = ['~'] then
      match home with
      | some h => h
      | none => ['~']
    else if pyStartsWith path ['~', '/'] then
      match home with
      | none => path
      | some h => if pyEndsWith h ['/'] then h ++ path.drop 2 else h ++ '/' :: path.drop 2
    else path
  posix_abspath cwd path

/-- The option characters accepted by `pyrun_parse_cmdline`
(`valid_options = 'vVmcbiESdOu3h?'` in the source); none of them takes
an argument. -/
def valid_options : List Char :=
  ['v', 'V', 'm', 'c', 'b', 'i', 'E', 'S', 'd', 'O', 'u', '3', 'h', '?']

/-- `getopt.short_has_arg` specialised to the bootloader's option
string: a recognized option never takes an argument, an unrecognized
one raises `GetoptError('option -X not recognized')`. -/
def short_has_arg (c : Char) : Except PyStr Bool :=
  if valid_options.contains c then Except.ok false
  else Except.error ("option -".toList ++ c :: " not recognized".toList)

/-- `getopt.do_shorts`: consume a cluster of short options, appending
each as a pair `('-X', '')` to the accumulated option list. -/
def do_shorts : List (PyStr × PyStr) → List Char → Except PyStr (List (PyStr × PyStr))
  | opts, [] => Except.ok opts
  | opts, c :: rest =>
    match short_has_arg c with
    | Except.error e => Except.error e
    | Except.ok _ => do_shorts (opts ++ [(['-', c], [])]) rest

/-- The main loop of Python 2 `getopt.getopt`: stop at the first
argument that does not look like an option (or at `--`, which is
consumed); a `--long` option is never recognized here (the bootloader
passes no long options); otherwise consume a short-option cluster. -/
def getopt_loop : List (PyStr × PyStr) → List PyStr → Except PyStr (List (PyStr × PyStr) × List PyStr)
  | opts, [] => Except.ok (opts, [])
  | opts, a :: rest =>
    if ¬ pyStartsWith a ['-'] ∨ a = ['-'] then Except.ok (opts, a :: rest)
    else if a = ['-', '-'] then Except.ok (opts, rest)
    else if pyStartsWith a ['-', '-'] then
      Except.error ("option --".toList ++ (pySplitChar '=' (a.drop 2)).headD [] ++ " not recognized".toList)
    else
      match do_shorts opts (a.drop 1) with
      | Except.error e => Except.error e
      | Except.ok opts2 => getopt_loop opts2 rest

/-- `getopt.getopt(args, 'vVmcbiESdOu3h?')` as called by
`pyrun_parse_cmdline` (on `sys.argv[1:]`). -/
def getopt (args : List PyStr) : Except PyStr (List (PyStr × PyStr) × List PyStr) :=
  getopt_loop [] args

/-- The bootloader's option globals (`pyrun_verbose`, `pyrun_debug`,
`pyrun_as_module`, ..., lines 67-76 of the source), gathered into one
record; all default to `0`/false. -/
structure PyrunOptions where
  pyrun_verbose : Bool := false
  pyrun_as_module : Bool := false
  pyrun_as_string : Bool := false
  pyrun_bytecode : Bool := false
  pyrun_interactive : Bool := false
  pyrun_ignore_environment : Bool := false
  pyrun_ignore_pth_files : Bool := false
  pyrun_skip_site_main : Bool := false
  pyrun_debug : Bool := false
  pyrun_unbuffered : Bool := false
  deriving DecidableEq

/-- Result of `pyrun_parse_cmdline`: either the option globals plus
the rewritten `sys.argv`, or a `sys.exit(code)` together with the
lines written to stdout and stderr on the way out. -/
inductive ParseResult where
  | success (opts : PyrunOptions) (argv : List PyStr)
  | exit (code : Nat) (outLines : List PyStr) (errLines : List PyStr)
  deriving DecidableEq

/-- The help text written by `pyrun_help` (one list element per line,
as produced by `str.splitlines`), followed by the given extra lines. -/
def pyrun_help_lines (name version : PyStr) (extra : List PyStr) : List PyStr :=
  [ "Usage: ".toList ++ name ++ " [pyrunoptions] <script> [parameters]".toList,
    [],
    "Version: ".toList ++ version,
    [],
    "Available pyrun options:".toList,
    [],
    "-h:   show this help text".toList,
    "-v:   run in verbose mode".toList,
    "-i:   enable interactive mode".toList,
    "-m:   import and run a module <script> available on PYTHONPATH".toList,
    "-c:   compile and run <script> directly as Python code".toList,
    "-b:   run the given <script> file as bytecode".toList,
    "-E:   ignore environment variables (only PYTHONPATH)".toList,
    "-S:   skip running site.main() and disable support for .pth files".toList,
    "-O:   ignored (pyrun always runs in optimized mode)".toList,
    "-u:   open stdout/stderr in unbuffered mode".toList,
    "-V:   print the pyrun version and exit".toList,
    [],
    "Without options, the given <script> file is loaded as Python source".toList,
    "code and run. Parameters are passed to the script via sys.argv as".toList,
    "normal.".toList,
    [] ] ++ extra

/-- Outcome of one iteration of the option-processing loop: either the
loop stops by raising `SystemExit(code)` (having written the given
stdout/stderr lines), or the option globals are updated and the loop
continues. -/
inductive StepOutcome where
  | exitWith (code : Nat) (outLines errLines : List PyStr)
  | updated (o : PyrunOptions)
  deriving DecidableEq

/-- One iteration of the option-processing loop of
`pyrun_parse_cmdline` (the `elif` chain, lines 203-282): each
recognized flag sets its global (the loop continues), `-V` exits 0
printing the version, `-O`/`-3` are ignored, `-h`/`-?` exit 0 with
help, and any other parsed option falls into the (unreachable)
`Unknown option` branch, exiting 1. -/
def pyrun_option_step (name version : PyStr) (o : PyrunOptions) (arg : PyStr) : StepOutcome :=
  if arg = "-v".toList then StepOutcome.updated { o with pyrun_verbose := true }
  else if arg = "-m".toList then StepOutcome.updated { o with pyrun_as_module := true }
  else if arg = "-c".toList then StepOutcome.updated { o with pyrun_as_string := true }
  else if arg = "-b".toList then StepOutcome.updated { o with pyrun_bytecode := true }
  else if arg = "-i".toList then StepOutcome.updated { o with pyrun_interactive := true }
  else if arg = "-E".toList then StepOutcome.updated { o with pyrun_ignore_environment := true }
  else if arg = "-S".toList then
    StepOutcome.updated { o with pyrun_ignore_pth_files := true, pyrun_skip_site_main := true }
  else if arg = "-d".toList then StepOutcome.updated { o with pyrun_debug := true }
  else if arg = "-u".toList then StepOutcome.updated { o with pyrun_unbuffered := true }
  else if arg = "-V".toList then StepOutcome.exitWith 0 ["pyrun ".toList ++ version] []
  else if arg = "-O".toList ∨ arg = "-3".toList then StepOutcome.updated o
  else if arg = "-h".toList ∨ arg = "-?".toList then
    StepOutcome.exitWith 0 [] (pyrun_help_lines name version [])
  else
    StepOutcome.exitWith 1 []
      (pyrun_help_lines name version ["*** Error: Unknown option ".toList ++ pyRepr arg])

/-- The option-processing loop of `pyrun_parse_cmdline` (lines
201-283): fold `pyrun_option_step` over the parsed options; when no
step exits, succeed with the remaining (non-flag) arguments as the new
`sys.argv`. -/
def pyrun_process_options (name version : PyStr) (remaining : List PyStr) :
    PyrunOptions → List (PyStr × PyStr) → ParseResult
  | o, [] => ParseResult.success o remaining
  | o, (arg, _val) :: rest =>
    match pyrun_option_step name version o arg with
    | StepOutcome.exitWith code outLines errLines => ParseResult.exit code outLines errLines
    | StepOutcome.updated o2 => pyrun_process_options name version remaining o2 rest

/-- `pyrun_parse_cmdline` (lines 182-286): run `getopt` over the
argument vector (everything after the program name); a `GetoptError`
exits 1 with help plus a `Problem parsing command line` line;
otherwise process the parsed options and rewrite `sys.argv` to the
remaining arguments. -/
def pyrun_parse_cmdline (name version : PyStr) (args : List PyStr) : ParseResult :=
  match getopt args with
  | Except.error reason =>
    ParseResult.exit 1 []
      (pyrun_help_lines name version ["*** Problem parsing command line: ".toList ++ reason])
  | Except.ok (parsed, remaining) =>
    pyrun_process_options name version remaining {} parsed

/-- The execution modes of `pyrun_execute_script`. -/
inductive Mode where
  | file
  | module
  | string
  | codefile
  | codestring
  deriving DecidableEq

/-- Mode selection in the `__main__` driver (lines 583-590):
`pyrun_as_module` wins over `pyrun_as_string`, everything else runs as
`'file'`; the `pyrun_bytecode` global is not consulted. -/
def pyrun_driver_mode (o : PyrunOptions) : Mode :=
  if o.pyrun_as_module then Mode.module
  else if o.pyrun_as_string then Mode.string
  else Mode.file

/-- The mode adjustment at the top of `pyrun_execute_script` (lines
462-465): `'file'` is upgraded to `'codefile'` when the script name
ends in `.pyc` or `.pyo`. -/
def pyrun_adjusted_mode (script : PyStr) (m : Mode) : Mode :=
  if m = Mode.file ∧ (pyEndsWith script ".pyc".toList ∨ pyEndsWith script ".pyo".toList)
  then Mode.codefile
  else m

/-- The dispatch mode finally used for a given argument vector and
script name: parse the command line, then apply the driver's mode
selection and `pyrun_execute_script`'s extension-based adjustment
(`none` when parsing exits instead of succeeding). -/
def pyrun_selected_mode (name version : PyStr) (args : List PyStr) (script : PyStr) : Option Mode :=
  match pyrun_parse_cmdline name version args with
  | ParseResult.success o _ => some (pyrun_adjusted_mode script (pyrun_driver_mode o))
  | _ => none

/-- C8: `pyrun_normpath "~"` with `HOME=/home/u` yields `/home/u`;
`pyrun_normpath "~/x"` yields `/home/u/x`, also when `HOME` ends with
the path separator; and with `HOME` unset, `pyrun_normpath "~"` yields
the literal `~` made absolute against the working directory (here
`/w`, giving `/w/~`), the function being total (no exception). -/
theorem C8_normalize_tilde_expansion :
    pyrun_normpath (some "/home/u".toList) "/w".toList "~".toList = "/home/u".toList ∧
    pyrun_normpath (some "/home/u".toList) "/w".toList "~/x".toList = "/home/u/x".toList ∧
    pyrun_normpath (some "/home/u/".toList) "/w".toList "~/x".toList = "/home/u/x".toList ∧
    pyrun_normpath none "/w".toList "~".toList = "/w/~".toList := by
  decide

/-- C1: the `-b` flag is dead code. Parsing `['-b', 'script.py']` sets
the `pyrun_bytecode` global, yet the driver's mode selection never
consults it, so the script is dispatched in `'file'` mode (executed as
source text) rather than as a bytecode file; the second conjunct shows
`pyrun_driver_mode` is entirely independent of the `pyrun_bytecode`
field. This contradicts the program's own help text
(`-b: run the given <script> file as bytecode`). -/
theorem C1_bytecode_flag_is_dead :
    (pyrun_parse_cmdline "pyrun".toList "2.6.0".toList ["-b".toList, "script.py".toList] =
      ParseResult.success { pyrun_bytecode := true } ["script.py".toList] ∧
     pyrun_selected_mode "pyrun".toList "2.6.0".toList ["-b".toList, "script.py".toList]
       "script.py".toList = some Mode.file ∧
     Mode.file ≠ Mode.codefile) ∧
    ∀ (o : PyrunOptions) (b : Bool), pyrun_driver_mode { o with pyrun_bytecode := b } = pyrun_driver_mode o := by
  exact ⟨by decide, fun o b => rfl⟩

/-- C4 counterexample: in `['-m', '-c', 'x']` the last mode flag
supplied is `-c` (string mode), yet the selected dispatch mode is
module mode, so the last mode flag does not win. -/
theorem C4_counterexample_last_flag_does_not_win :
    pyrun_selected_mode "pyrun".toList "2.6.0".toList
      ["-m".toList, "-c".toList, "x".toList] "x".toList = some Mode.module ∧
    some Mode.module ≠ some Mode.string := by
  decide

/-- C4 amended: each mode flag merely sets its own sticky global, and
the driver resolves the dispatch mode by fixed priority, `-m` over
`-c`, with `-b` ignored; argument order is irrelevant. All six
orderings of `-m -c -b` select module mode, and both orderings of
`-c -b` select string mode. -/
theorem C4_amended_fixed_priority :
    (∀ l ∈ [["-m".toList, "-c".toList, "-b".toList],
            ["-m".toList, "-b".toList, "-c".toList],
            ["-c".toList, "-m".toList, "-b".toList],
            ["-c".toList, "-b".toList, "-m".toList],
            ["-b".toList, "-m".toList, "-c".toList],
            ["-b".toList, "-c".toList, "-m".toList]],
      pyrun_selected_mode "pyrun".toList "2.6.0".toList (l ++ ["x".toList]) "x".toList =
        some Mode.module) ∧
    (∀ l ∈ [["-c".toList, "-b".toList], ["-b".toList, "-c".toList]],
      pyrun_selected_mode "pyrun".toList "2.6.0".toList (l ++ ["x".toList]) "x".toList =
        some Mode.string) := by
  decide

/-- Witness for `C4_amended_fixed_priority` at the ordering
`-m -c -b`. -/
theorem C4_amended_fixed_priority_witness :
    pyrun_selected_mode "pyrun".toList "2.6.0".toList
      (["-m".toList, "-c".toList, "-b".toList] ++ ["x".toList]) "x".toList =
      some Mode.module :=
  C4_amended_fixed_priority.1 _ (by decide)

/-- Whether `needle` occurs as a contiguous substring of the given
character list. -/
def subOccurs (needle : PyStr) : PyStr → Bool
  | [] => needle.isEmpty
  | c :: rest => needle.isPrefixOf (c :: rest) || subOccurs needle rest

/-- C5 counterexample: the unrecognized flag `-x` does exit 1 with
help text on stderr, but the line appended is
`*** Problem parsing command line: option -x not recognized` (raised
by `getopt` itself); no line of the output contains the phrase
`unknown option` (in either capitalisation) — the dedicated
`Unknown option` branch of the option loop is never reached. -/
theorem C5_counterexample_no_unknown_option_line :
    pyrun_parse_cmdline "pyrun".toList "2.6.0".toList ["-x".toList] =
      ParseResult.exit 1 []
        (pyrun_help_lines "pyrun".toList "2.6.0".toList
          ["*** Problem parsing command line: option -x not recognized".toList]) ∧
    ∀ line ∈ pyrun_help_lines "pyrun".toList "2.6.0".toList
        ["*** Problem parsing command line: option -x not recognized".toList],
      subOccurs "unknown option".toList line = false ∧
      subOccurs "Unknown option".toList line = false := by
  decide

/-- C5 amended: an argument vector whose first token is an
unrecognized single-character flag `-X` makes `pyrun_parse_cmdline`
exit with status 1, writing the help text to stderr with the line
`*** Problem parsing command line: option -X not recognized` appended
(the `GetoptError` path, lines 197-199 of the source). -/
theorem C5_amended_unrecognized_flag (name version : PyStr) (c : Char) (rest : List PyStr)
    (hc : valid_options.contains c = false) (hdash : c ≠ '-') :
    pyrun_parse_cmdline name version (('-' :: [c]) :: rest) =
      ParseResult.exit 1 []
        (pyrun_help_lines name version
          ["*** Problem parsing command line: option -".toList ++ c :: " not recognized".toList]) := by
  have hne : (('-' : Char) == c) = false := by
    simp only [beq_eq_false_iff_ne]
    exact Ne.symm hdash
  simp only [pyrun_parse_cmdline, getopt, getopt_loop, pyStartsWith, List.isPrefixOf,
    List.drop, do_shorts, short_has_arg, hc, hne]
  simp [hdash]

/-- Witness for `C5_amended_unrecognized_flag` at the flag `-x`. -/
theorem C5_amended_unrecognized_flag_witness :
    pyrun_parse_cmdline "pyrun".toList "2.6.0".toList (('-' :: ['x']) :: []) =
      ParseResult.exit 1 []
        (pyrun_help_lines "pyrun".toList "2.6.0".toList
          ["*** Problem parsing command line: option -".toList ++ 'x' :: " not recognized".toList]) :=
  C5_amended_unrecognized_flag "pyrun".toList "2.6.0".toList 'x' [] (by decide) (by decide)

/-- A token consumed as a flag by `getopt`: either the `--` terminator
or a `-` followed by a non-empty cluster of recognized option
characters. -/
def isConsumedFlagToken (t : PyStr) : Prop :=
  t = ['-', '-'] ∨
    (pyStartsWith t ['-'] = true ∧ t ≠ ['-'] ∧ ∀ c ∈ t.drop 1, c ∈ valid_options)

/-- If `do_shorts` succeeds then every character of the cluster is a
recognized option character. -/
theorem do_shorts_ok_mem : ∀ (cs : List Char) (opts opts2 : List (PyStr × PyStr)),
    do_shorts opts cs = Except.ok opts2 → ∀ c ∈ cs, c ∈ valid_options := by
  intro cs
  induction cs with
  | nil => intro opts opts2 _ c hc; cases hc
  | cons c rest ih =>
    intro opts opts2 h d hd
    simp only [do_shorts, short_has_arg] at h
    split at h
    next e hsc => simp at h
    next b hsc =>
      rcases List.mem_cons.mp hd with rfl | hmem
      · by_cases hdv : valid_options.contains d = true
        · exact List.mem_of_elem_eq_true hdv
        · rw [if_neg] at hsc
          · exact absurd hsc (by simp)
          · simpa using hdv
      · exact ih _ _ h d hmem

/-- The option-processing loop can only succeed with exactly the
residual argument list that `getopt` returned. -/
theorem pyrun_process_options_success :
    ∀ (l : List (PyStr × PyStr)) (name version : PyStr) (remaining : List PyStr)
      (o o2 : PyrunOptions) (rem : List PyStr),
    pyrun_process_options name version remaining o l = ParseResult.success o2 rem →
    rem = remaining := by
  intro l
  induction l with
  | nil =>
    intro name version remaining o o2 rem h
    simp only [pyrun_process_options, ParseResult.success.injEq] at h
    exact h.2.symm
  | cons p rest ih =>
    intro name version remaining o o2 rem h
    obtain ⟨arg, v⟩ := p
    simp only [pyrun_process_options] at h
    cases hstep : pyrun_option_step name version o arg with
    | exitWith code outLines errLines =>
      rw [hstep] at h
      exact ParseResult.noConfusion h
    | updated o3 =>
      rw [hstep] at h
      exact ih _ _ _ _ _ _ h

/-- When `getopt_loop` succeeds, the input is the consumed flag tokens
followed, unchanged and in order, by the returned residual list. -/
theorem getopt_loop_suffix : ∀ (args : List PyStr) (opts opts2 : List (PyStr × PyStr)) (rem : List PyStr),
    getopt_loop opts args = Except.ok (opts2, rem) →
    ∃ consumed, args = consumed ++ rem ∧ ∀ t ∈ consumed, isConsumedFlagToken t := by
  intro args
  induction args with
  | nil =>
    intro opts opts2 rem h
    simp only [getopt_loop, Except.ok.injEq, Prod.mk.injEq] at h
    exact ⟨[], by simp [← h.2], by simp⟩
  | cons a rest ih =>
    intro opts opts2 rem h
    simp only [getopt_loop] at h
    split at h
    next hcond =>
      simp only [Except.ok.injEq, Prod.mk.injEq] at h
      exact ⟨[], by simp [← h.2], by simp⟩
    next hcond =>
      split at h
      next ha =>
        simp only [Except.ok.injEq, Prod.mk.injEq] at h
        refine ⟨[a], ?_, ?_⟩
        · simp [← h.2]
        · intro t ht
          simp only [List.mem_singleton] at ht
          subst ht
          exact Or.inl ha
      next ha =>
        split at h
        next hlong => simp at h
        next hlong =>
          cases hds : do_shorts opts (List.drop 1 a) with
          | error e => rw [hds] at h; simp at h
          | ok opts3 =>
            rw [hds] at h
            obtain ⟨consumed, hc1, hc2⟩ := ih opts3 opts2 rem h
            refine ⟨a :: consumed, by simp [hc1], ?_⟩
            intro t ht
            rcases List.mem_cons.mp ht with rfl | h2
            · push_neg at hcond
              exact Or.inr ⟨hcond.1, hcond.2, do_shorts_ok_mem _ _ _ hds⟩
            · exact hc2 t h2

/-- C3: whenever `pyrun_parse_cmdline` succeeds, the rewritten
`sys.argv` is a contiguous suffix of the input argument vector — the
input is exactly a prefix of consumed flag tokens (each a recognized
flag cluster or the `--` terminator) followed by the non-flag tokens,
which are kept unchanged and in their original relative order. -/
theorem C3_residual_argv (name version : PyStr) (args : List PyStr) (o : PyrunOptions) (rem : List PyStr)
    (h : pyrun_parse_cmdline name version args = ParseResult.success o rem) :
    ∃ consumed, args = consumed ++ rem ∧ ∀ t ∈ consumed, isConsumedFlagToken t := by
  unfold pyrun_parse_cmdline at h
  cases hg : getopt args with
  | error e => rw [hg] at h; simp at h
  | ok pr =>
    obtain ⟨parsed, remaining⟩ := pr
    rw [hg] at h
    have hrem := pyrun_process_options_success parsed name version remaining {} o rem h
    subst hrem
    exact getopt_loop_suffix args [] parsed rem hg

/-- Witness for `C3_residual_argv` on `['-v', 'script.py', '-x']`:
`-v` is consumed, and everything from the first positional on
(including the flag-like `-x`, which `getopt` does not reach) is left
as the residual argument vector. -/
theorem C3_residual_argv_witness :
    ∃ consumed, ["-v".toList, "script.py".toList, "-x".toList] =
        consumed ++ ["script.py".toList, "-x".toList] ∧
      ∀ t ∈ consumed, isConsumedFlagToken t :=
  C3_residual_argv "pyrun".toList "2.6.0".toList
    ["-v".toList, "script.py".toList, "-x".toList] { pyrun_verbose := true }
    ["script.py".toList, "-x".toList] (by decide)

/-- The ambient process state consulted by `pyrun_setup_sys_path`: the
working directory, the `HOME` and `PYTHONPATH` environment variables
(`none` = unset), the filesystem existence predicate
(`os.path.exists`), the extra roots discovered by `site.addsitedir`
from .pth files, and the `pyrun_config` constants `pyrun_prefix`
(`prefixDir`), `pyrun_dir` (`pyrunDir`) and `pyrun_libversion`
(`libVersion`). -/
structure PyrunEnv where
  cwd : PyStr
  home : Option PyStr
  pythonpath : Option PyStr
  fsExists : PyStr → Bool
  addsitedirExtras : PyStr → List PyStr
  prefixDir : PyStr
  pyrunDir : PyStr
  libVersion : PyStr

/-- Modelled from the spec: the external site-directory-addition
collaborator (`site.addsitedir`, Python standard library, not part of
this repository) appends the site directory itself, followed by the
additional roots discovered from extension-registration (.pth) files,
in the order that collaborator returns them. -/
def site_addsitedir (env : PyrunEnv) (dir : PyStr) : List PyStr :=
  dir :: env.addsitedirExtras dir

/-- First `sys.path` entry (lines 378-385): the directory of the
normalized script when a script is given, otherwise the current
working directory; normalized either way. -/
def pyrun_script_dir (env : PyrunEnv) (script : Option PyStr) : PyStr :=
  let d :=
    match script with
    | some s => (posix_split (pyrun_normpath env.home env.cwd s)).1
    | none => env.cwd
  pyrun_normpath env.home env.cwd d

/-- The runtime library directory (lines 386-389):
`<prefix>/lib/python<libversion>`, falling back to the same location
under `pyrun_dir` when the primary does not exist; normalized. -/
def pyrun_python_lib (env : PyrunEnv) : PyStr :=
  let lib := posix_join (posix_join env.prefixDir "lib".toList) ("python".toList ++ env.libVersion)
  let lib :=
    if env.fsExists lib then lib
    else posix_join (posix_join env.pyrunDir "lib".toList) ("python".toList ++ env.libVersion)
  pyrun_normpath env.home env.cwd lib

/-- The native-extension subdirectory `lib-dynload` of the library
directory (line 390). -/
def pyrun_python_lib_dynload (env : PyrunEnv) : PyStr :=
  posix_join (pyrun_python_lib env) "lib-dynload".toList

/-- The `site-packages` subdirectory of the library directory
(line 391). -/
def pyrun_python_site_package (env : PyrunEnv) : PyStr :=
  posix_join (pyrun_python_lib env) "site-packages".toList

/-- The normalized `PYTHONPATH` entries (lines 400-404): split on the
path separator and normalize each entry, keeping the listed order;
empty when the variable is unset. -/
def pythonpath_entries (env : PyrunEnv) : List PyStr :=
  match env.pythonpath with
  | none => []
  | some pp => (pySplitChar ':' pp).map (pyrun_normpath env.home env.cwd)

/-- `pyrun_setup_sys_path` (lines 361-436): build `sys.path` from the
script directory, then (unless `-E`) the `PYTHONPATH` entries, then
the library directory and its `lib-dynload` subdirectory, then the
site-packages directory (raw under `-S`, else through
`site.addsitedir`), and finally drop the entries that do not exist on
the filesystem. -/
def pyrun_setup_sys_path (env : PyrunEnv) (o : PyrunOptions) (script : Option PyStr) : List PyStr :=
  let path := [pyrun_script_dir env script]
  let path := path ++ (if o.pyrun_ignore_environment then [] else pythonpath_entries env)
  let path := path ++ [pyrun_python_lib env, pyrun_python_lib_dynload env]
  let path := path ++
    (if o.pyrun_ignore_pth_files then [pyrun_python_site_package env]
     else site_addsitedir env (pyrun_python_site_package env))
  path.filter env.fsExists

/-- A concrete environment for the spec's example: working directory
`/w` with `PYTHONPATH=/w/a:/w/b` where `/w/a` exists on disk and
`/w/b` does not. -/
def envExampleAB : PyrunEnv :=
  { cwd := "/w".toList
    home := none
    pythonpath := some "/w/a:/w/b".toList
    fsExists := fun s => (["/w".toList, "/w/a".toList, "/p/lib/python2.7".toList]).contains s
    addsitedirExtras := fun _ => []
    prefixDir := "/p".toList
    pyrunDir := "/pp".toList
    libVersion := "2.7".toList }

/-- `envExampleAB` with `/w/a` listed twice in `PYTHONPATH`, to
exhibit that surviving entries are not deduplicated. -/
def envExampleDup : PyrunEnv :=
  { envExampleAB with pythonpath := some "/w/a:/w/b:/w/a".toList }

/-- C2: for every invocation the assembled search path is the
existence-filtered concatenation of: the normalized script directory
(or working directory), then — iff `ignore_environment` is unset — the
normalized `PYTHONPATH` entries in listed order, then the library
directory and its native-extension subdirectory, then the
site-packages directory, raw when `ignore_pth_files` is set and
otherwise followed by the collaborator's extra roots; the filter
preserves relative order. Concretely, with existing `/w/a` and missing
`/w/b` as `PYTHONPATH` entries the result keeps `/w/a` and drops
`/w/b`, and a repeated surviving entry stays repeated (count 2, no
deduplication). -/
theorem C2_search_path_assembly :
    (∀ (env : PyrunEnv) (o : PyrunOptions) (script : Option PyStr),
      pyrun_setup_sys_path env o script =
        List.filter env.fsExists
          (pyrun_script_dir env script ::
            ((if o.pyrun_ignore_environment then [] else pythonpath_entries env) ++
              ([pyrun_python_lib env, pyrun_python_lib_dynload env] ++
                (if o.pyrun_ignore_pth_files then [pyrun_python_site_package env]
                 else pyrun_python_site_package env ::
                   env.addsitedirExtras (pyrun_python_site_package env)))))) ∧
    ("/w/a".toList ∈ pyrun_setup_sys_path envExampleAB { pyrun_ignore_pth_files := true } none ∧
     "/w/b".toList ∉ pyrun_setup_sys_path envExampleAB { pyrun_ignore_pth_files := true } none) ∧
    (pyrun_setup_sys_path envExampleDup { pyrun_ignore_pth_files := true } none).count "/w/a".toList = 2 := by
  refine ⟨?_, by decide, by decide⟩
  intro env o script
  simp [pyrun_setup_sys_path, site_addsitedir, List.append_assoc]

/-- A Python run-time failure, as seen by the driver's handler: an
ordinary exception (an instance of `Exception`), a `SystemExit`
request (raised by `sys.exit`), or a `KeyboardInterrupt`; in Python 2
the latter two derive from `BaseException` but not from `Exception`. -/
inductive PyExc where
  | exception (msg : PyStr)
  | systemExit (code : Int)
  | keyboardInterrupt
  deriving DecidableEq

/-- Whether the driver's `except Exception` clause catches a given
failure. -/
def exceptExceptionCatches : PyExc → Bool
  | PyExc.exception _ => true
  | _ => false

/-- The line written by `pyrun_log_error`:
`'%s error: %s' % (pyrun_name, line)`. -/
def pyrun_log_error_line (name line : PyStr) : PyStr :=
  name ++ " error: ".toList ++ line

/-- Observable trace of the `'codefile'` branch of
`pyrun_execute_script` (lines 481-514): the stderr lines logged, the
`sys.exit` code if any, the failure propagated if any, and whether the
byte-source handle was opened and explicitly closed, whether
`marshal.load` was attempted and whether the loaded code was
executed. -/
structure CodefileTrace where
  errLines : List PyStr
  exitCode : Option Nat
  raised : Option PyExc
  opened : Bool
  closedExplicitly : Bool
  marshalAttempted : Bool
  execAttempted : Bool
  deriving DecidableEq

/-- The `'codefile'` branch of `pyrun_execute_script`, straight-line:
check readability (`os.access`), open the file, read and compare the
4-byte magic against `imp.get_magic()` (exiting 1 on mismatch,
without closing), skip the 4-byte timestamp, `marshal.load` the code
object (a failure propagates, without closing), close the file, then
`exec` the code (a failure here propagates after the close).
`readable`, `fileBytes`, `magic`, `marshalOk` and `execFailure` model
the filesystem state, the file's contents, the engine's magic
constant, and the outcomes of the engine's deserializer and of the
executed code. -/
def pyrun_execute_codefile (name script : PyStr) (readable : Bool) (fileBytes : List Nat)
    (magic : List Nat) (marshalOk : Bool) (execFailure : Option PyExc) : CodefileTrace :=
  if ¬ readable then
    { errLines := [pyrun_log_error_line name ("Could not find/read script file ".toList ++ pyRepr script)]
      exitCode := some 1
      raised := none
      opened := false
      closedExplicitly := false
      marshalAttempted := false
      execAttempted := false }
  else if fileBytes.take 4 ≠ magic then
    { errLines := [pyrun_log_error_line name ("Incompatible bytecode file ".toList ++ pyRepr script)]
      exitCode := some 1
      raised := none
      opened := true
      closedExplicitly := false
      marshalAttempted := false
      execAttempted := false }
  else if ¬ marshalOk then
    { errLines := []
      exitCode := none
      raised := some (PyExc.exception "marshal.load failed".toList)
      opened := true
      closedExplicitly := false
      marshalAttempted := true
      execAttempted := false }
  else
    { errLines := []
      exitCode := none
      raised := execFailure
      opened := true
      closedExplicitly := true
      marshalAttempted := true
      execAttempted := true }

/-- C7: when the first 4 bytes of a readable bytecode file differ from
the engine's expected magic constant, the run logs exactly the single
diagnostic line `pyrun error: Incompatible bytecode file '<ref>'`
naming the file and exits with status 1, with neither the
deserializer nor the execution of the payload ever attempted. -/
theorem C7_magic_mismatch_exits_1 (name script : PyStr) (fileBytes magic : List Nat)
    (marshalOk : Bool) (execFailure : Option PyExc)
    (h : fileBytes.take 4 ≠ magic) :
    pyrun_execute_codefile name script true fileBytes magic marshalOk execFailure =
      { errLines := [pyrun_log_error_line name ("Incompatible bytecode file ".toList ++ pyRepr script)]
        exitCode := some 1
        raised := none
        opened := true
        closedExplicitly := false
        marshalAttempted := false
        execAttempted := false } := by
  simp [pyrun_execute_codefile, h]

/-- Witness for `C7_magic_mismatch_exits_1`: a file starting
`0,0,0,0` against the magic `99,80,13,10`. -/
theorem C7_magic_mismatch_exits_1_witness :
    pyrun_execute_codefile "pyrun".toList "x.pyc".toList true [0, 0, 0, 0] [99, 80, 13, 10] true none =
      { errLines := [pyrun_log_error_line "pyrun".toList
          ("Incompatible bytecode file ".toList ++ pyRepr "x.pyc".toList)]
        exitCode := some 1
        raised := none
        opened := true
        closedExplicitly := false
        marshalAttempted := false
        execAttempted := false } :=
  C7_magic_mismatch_exits_1 "pyrun".toList "x.pyc".toList [0, 0, 0, 0] [99, 80, 13, 10] true none
    (by decide)

/-- C9 counterexample: on the magic-mismatch exit path the byte-source
handle has been opened but is not explicitly closed — there is no
scoped acquisition (`with`/`try-finally`) in `pyrun_execute_script`,
so not every exit path releases the handle. -/
theorem C9_counterexample_magic_mismatch_leaks :
    (pyrun_execute_codefile "pyrun".toList "x.pyc".toList true [0, 0, 0, 0] [99, 80, 13, 10] true none).opened = true ∧
    (pyrun_execute_codefile "pyrun".toList "x.pyc".toList true [0, 0, 0, 0] [99, 80, 13, 10] true none).closedExplicitly = false := by
  decide

/-- C9 amended: the byte-source handle is explicitly closed only on
the path where the magic matches and deserialization succeeds — the
close happens before execution, so a failure raised while running the
loaded code finds the handle already released; on the magic-mismatch
exit and on a deserialization failure no explicit close occurs. -/
theorem C9_amended_close_only_after_marshal (name script : PyStr) (good bad magic : List Nat)
    (execFailure : Option PyExc)
    (hgood : good.take 4 = magic) (hbad : bad.take 4 ≠ magic) :
    ((pyrun_execute_codefile name script true good magic true execFailure).closedExplicitly = true ∧
     (pyrun_execute_codefile name script true good magic true execFailure).execAttempted = true ∧
     (pyrun_execute_codefile name script true good magic true execFailure).raised = execFailure) ∧
    (pyrun_execute_codefile name script true good magic false execFailure).closedExplicitly = false ∧
    (pyrun_execute_codefile name script true bad magic true execFailure).closedExplicitly = false := by
  refine ⟨⟨?_, ?_, ?_⟩, ?_, ?_⟩ <;> simp [pyrun_execute_codefile, hgood, hbad]

/-- Witness for `C9_amended_close_only_after_marshal` with a matching
and a mismatching file, and an execution failure. -/
theorem C9_amended_close_only_after_marshal_witness :
    ((pyrun_execute_codefile "pyrun".toList "x.pyc".toList true [99, 80, 13, 10, 1] [99, 80, 13, 10] true
        (some (PyExc.exception "boom".toList))).closedExplicitly = true ∧
     (pyrun_execute_codefile "pyrun".toList "x.pyc".toList true [99, 80, 13, 10, 1] [99, 80, 13, 10] true
        (some (PyExc.exception "boom".toList))).execAttempted = true ∧
     (pyrun_execute_codefile "pyrun".toList "x.pyc".toList true [99, 80, 13, 10, 1] [99, 80, 13, 10] true
        (some (PyExc.exception "boom".toList))).raised = some (PyExc.exception "boom".toList)) ∧
    (pyrun_execute_codefile "pyrun".toList "x.pyc".toList true [99, 80, 13, 10, 1] [99, 80, 13, 10] false
      (some (PyExc.exception "boom".toList))).closedExplicitly = false ∧
    (pyrun_execute_codefile "pyrun".toList "x.pyc".toList true [0, 0, 0, 0] [99, 80, 13, 10] true
      (some (PyExc.exception "boom".toList))).closedExplicitly = false :=
  C9_amended_close_only_after_marshal "pyrun".toList "x.pyc".toList [99, 80, 13, 10, 1] [0, 0, 0, 0]
    [99, 80, 13, 10] (some (PyExc.exception "boom".toList)) (by decide) (by decide)

/-- The start-up banner (`pyrun_banner`, lines 61-64):
`'%s %s\n...' % (pyrun_name, sys.version)`. -/
def pyrun_banner (name sysVersion : PyStr) : PyStr :=
  name ++ " ".toList ++ sysVersion ++
    "\nThank you for using eGenix PyRun. Type \"help\" or \"license\" for details.\n".toList

/-- Result of `pyrun_execute_script` as seen by the driver: normal
completion or a propagating failure. -/
inductive ExecResult where
  | ok
  | raised (e : PyExc)
  deriving DecidableEq

/-- What the driver does after `pyrun_execute_script` returns. -/
inductive DriverOutcome where
  | promptEntered (banner : PyStr) (tracePrinted : Bool)
  | terminatedWith (e : PyExc)
  | exitZero
  deriving DecidableEq

/-- Whether the interactive prompt was entered. -/
def isPromptOutcome : DriverOutcome → Bool
  | DriverOutcome.promptEntered _ _ => true
  | _ => false

/-- The `__main__` driver's handling of the script run (lines
600-613): `except Exception` catches only ordinary exceptions — when
`interactive` is set such a failure prints its traceback and enters
`pyrun_prompt` with an empty banner, otherwise it is re-raised; a
failure not caught by the clause (SystemExit, KeyboardInterrupt)
always propagates; on normal completion with `interactive` set the
prompt is entered with the default full banner, else the driver
reaches `sys.exit(0)`. -/
def pyrun_driver_run_outcome (name sysVersion : PyStr) (interactive : Bool) (r : ExecResult) :
    DriverOutcome :=
  match r with
  | ExecResult.ok =>
    if interactive then DriverOutcome.promptEntered (pyrun_banner name sysVersion) false
    else DriverOutcome.exitZero
  | ExecResult.raised e =>
    if exceptExceptionCatches e then
      if interactive then DriverOutcome.promptEntered [] true
      else DriverOutcome.terminatedWith e
    else DriverOutcome.terminatedWith e

/-- C6 counterexample: with the interactive flag set, a `SystemExit`
raised while running the target (e.g. the target calling `sys.exit(3)`)
is not recovered — the driver terminates with the propagated failure
and the interactive fallback is not entered, so not every failure is
recovered locally. -/
theorem C6_counterexample_systemExit_not_recovered :
    pyrun_driver_run_outcome "pyrun".toList "2.7.18".toList true
      (ExecResult.raised (PyExc.systemExit 3)) =
      DriverOutcome.terminatedWith (PyExc.systemExit 3) ∧
    isPromptOutcome (pyrun_driver_run_outcome "pyrun".toList "2.7.18".toList true
      (ExecResult.raised (PyExc.systemExit 3))) = false := by
  decide

/-- C6 amended: with the interactive flag set, any ordinary exception
raised while running the target is recovered locally — its traceback
is printed and the interactive fallback is entered with an empty
banner — and on successful completion the fallback is entered with
the full banner; failures that are process-exit or interrupt requests
are outside the handler and still propagate. -/
theorem C6_amended_interactive_recovery (name sysVersion msg : PyStr) :
    pyrun_driver_run_outcome name sysVersion true (ExecResult.raised (PyExc.exception msg)) =
      DriverOutcome.promptEntered [] true ∧
    pyrun_driver_run_outcome name sysVersion true ExecResult.ok =
      DriverOutcome.promptEntered (pyrun_banner name sysVersion) false := by
  exact ⟨rfl, rfl⟩

/-- C10: even with the interactive flag set, a failure that is a
process-exit or interrupt request rather than an ordinary exception —
`SystemExit` with any code, or `KeyboardInterrupt` — is not diverted
to the interactive fallback: the `except Exception` clause does not
catch it, so it terminates the process. -/
theorem C10_exit_requests_escape_interactive (name sysVersion : PyStr) (code : Int) :
    pyrun_driver_run_outcome name sysVersion true (ExecResult.raised (PyExc.systemExit code)) =
      DriverOutcome.terminatedWith (PyExc.systemExit code) ∧
    pyrun_driver_run_outcome name sysVersion true (ExecResult.raised PyExc.keyboardInterrupt) =
      DriverOutcome.terminatedWith PyExc.keyboardInterrupt ∧
    exceptExceptionCatches (PyExc.systemExit code) = false ∧
    exceptExceptionCatches PyExc.keyboardInterrupt = false := by
  exact ⟨rfl, rfl, rfl, rfl⟩
